import Mathlib

/-!
Shallow embedding of `src/bsec/rpi/bin/bsec_py_wrapper.c`.

The wrapper marshals calls into the closed-source BSEC engine.  The engine is
modelled by the responses it gives to the entry points the wrapper invokes;
the wrapper's own control flow, its writes to its static state, the arguments
of every engine call it makes, and its diagnostic prints are embedded
faithfully, with traces recording the observable interaction.

C `float` signal values are idealised as rationals (`Rat`); no claim in this
development concerns rounding behaviour.
-/

/-- Modelled from the spec: the sensor identifiers are enum constants of the
vendor header `bsec_datatypes.h`, which is not among this repository's
sources.  Only identity matters to the wrapper, so the identifiers the wrapper
names are constructors and every other code is `other`. -/
inductive SensorId where
  | IAQ
  | STATIC_IAQ
  | CO2_EQUIVALENT
  | BREATH_VOC_EQUIVALENT
  | COMPENSATED_GAS
  | GAS_PERCENTAGE
  | STABILIZATION_STATUS
  | RUN_IN_STATUS
  | TEMPERATURE
  | HUMIDITY
  | PRESSURE
  | GASRESISTOR
  | other (code : Nat)
  deriving DecidableEq, Repr

/-- Modelled from the spec: the sample-rate tiers (float constants of the
vendor header) are an enum — "sample_rate: enum" — with `DISABLED` the zero
value a zero-initialised static carries before the first assignment. -/
inductive SampleRate where
  | DISABLED
  | LP
  | SCAN
  | ULP
  deriving DecidableEq, Repr

/-- `bsec_sensor_configuration_t`: one virtual-sensor request entry. -/
structure bsec_sensor_configuration_t where
  sensor_id : SensorId
  sample_rate : SampleRate
  deriving DecidableEq, Repr

/-- `bsec_input_t`: one physical-sensor input sample handed to the engine. -/
structure bsec_input_t where
  sensor_id : SensorId
  signal : Rat
  time_stamp : Nat
  deriving DecidableEq, Repr

/-- `bsec_output_t`: one virtual-sensor output returned by the engine. -/
structure bsec_output_t where
  sensor_id : SensorId
  signal : Rat
  accuracy : Nat
  deriving DecidableEq, Repr

/-- `BSEC_OK`, the engine's success status. -/
def BSEC_OK : Int := 0

/-- Modelled from the spec: `BSEC_MAX_PHYSICAL_SENSOR` is a constant of the
vendor header ("capped at a fixed maximum count"); its concrete value is not
used by any claim, only its identity as the capacity the wrapper passes. -/
def BSEC_MAX_PHYSICAL_SENSOR : Nat := 8

/-- The opaque vendor engine, modelled by the responses it gives to the entry
points the wrapper calls.  `update_subscription` receives the requested bundle
and the capacity count the wrapper passes through the in/out
`n_required_sensor_settings` pointer; it returns its status, the populated
physical-sensor requirement list, and the count it stores back through that
pointer.  `do_steps` receives the input list and the capacity count passed
through the in/out `n_outputs` pointer and returns its status and the outputs
it writes. -/
structure Engine where
  init_status : Int
  set_configuration_status : Int
  update_subscription : List bsec_sensor_configuration_t → Nat →
      Int × List bsec_sensor_configuration_t × Nat
  do_steps : List bsec_input_t → Nat → Int × List bsec_output_t

/-- The wrapper's process-wide statics (`requested_virtual_sensors`,
`n_requested_virtual_sensors`). -/
structure WrapperState where
  requested_virtual_sensors : List bsec_sensor_configuration_t
  n_requested_virtual_sensors : Nat
  deriving DecidableEq, Repr

/-- The statics as zero-initialised at program start
(`static ... requested_virtual_sensors[8]`, `n_requested_virtual_sensors = 1`). -/
def initialState : WrapperState :=
  ⟨List.replicate 8 ⟨.other 0, .DISABLED⟩, 1⟩

/-- The diagnostic prints of `py_bsec_init`, as abstract events. -/
inductive LogEvent where
  | basicInitOk
  | configFailed (st : Int)
  | configOk
  | lpResult (st : Int)
  | lpSuccess
  | lpFailedTryingScan
  | scanResult (st : Int)
  | scanSuccess
  | scanFailedFallingBackToUlp
  deriving DecidableEq, Repr

/-- One observed call to `bsec_update_subscription`: the bundle passed, the
`n_requested_virtual_sensors` count passed, the capacity count passed through
the in/out pointer, and the status the engine returned. -/
structure SubscriptionCall where
  requested : List bsec_sensor_configuration_t
  n_requested : Nat
  capacity : Nat
  status : Int
  deriving DecidableEq, Repr

/-- Result of `py_bsec_init`: the returned status, the statics after the call,
whether `bsec_set_configuration` was invoked, the subscription calls made, and
the log events printed. -/
structure InitResult where
  status : Int
  state : WrapperState
  configCalled : Bool
  subCalls : List SubscriptionCall
  log : List LogEvent
  deriving DecidableEq, Repr

/-- Lines 30–52: the eight bundle entries, each assigned `BSEC_SAMPLE_RATE_LP`. -/
def lpBundle : List bsec_sensor_configuration_t :=
  [⟨.IAQ, .LP⟩, ⟨.STATIC_IAQ, .LP⟩, ⟨.CO2_EQUIVALENT, .LP⟩,
   ⟨.BREATH_VOC_EQUIVALENT, .LP⟩, ⟨.COMPENSATED_GAS, .LP⟩,
   ⟨.GAS_PERCENTAGE, .LP⟩, ⟨.STABILIZATION_STATUS, .LP⟩, ⟨.RUN_IN_STATUS, .LP⟩]

/-- Lines 73–88 and 103–110: overwrite the `sample_rate` of every entry of the
static array (it holds exactly 8 entries, indices 0–7). -/
def setAllRates (b : List bsec_sensor_configuration_t) (r : SampleRate) :
    List bsec_sensor_configuration_t :=
  b.map fun c => { c with sample_rate := r }

/-- Lines 22–27: the config-load print, success or failure. -/
def logConfig (e : Engine) : List LogEvent :=
  [.basicInitOk] ++
    (if e.set_configuration_status ≠ BSEC_OK
     then [.configFailed e.set_configuration_status]
     else [.configOk])

/-- `py_bsec_init` (lines 13–116), as a function of the engine's responses and
the statics, returning the status together with the observable trace. -/
def py_bsec_init (e : Engine) (s : WrapperState) : InitResult :=
  let bsec_status := e.init_status
  if bsec_status ≠ BSEC_OK then
    { status := bsec_status, state := s, configCalled := false,
      subCalls := [], log := [] }
  else
    let log₁ := logConfig e
    let s₁ : WrapperState :=
      { requested_virtual_sensors := lpBundle, n_requested_virtual_sensors := 8 }
    let r₁ := e.update_subscription s₁.requested_virtual_sensors
        BSEC_MAX_PHYSICAL_SENSOR
    let call₁ : SubscriptionCall :=
      { requested := s₁.requested_virtual_sensors,
        n_requested := s₁.n_requested_virtual_sensors,
        capacity := BSEC_MAX_PHYSICAL_SENSOR, status := r₁.1 }
    let log₂ := log₁ ++ [.lpResult r₁.1]
    if r₁.1 = BSEC_OK then
      { status := 0, state := s₁, configCalled := true,
        subCalls := [call₁], log := log₂ ++ [.lpSuccess] }
    else
      let s₂ : WrapperState :=
        { s₁ with requested_virtual_sensors :=
            setAllRates s₁.requested_virtual_sensors .SCAN }
      let r₂ := e.update_subscription s₂.requested_virtual_sensors r₁.2.2
      let call₂ : SubscriptionCall :=
        { requested := s₂.requested_virtual_sensors,
          n_requested := s₂.n_requested_virtual_sensors,
          capacity := r₁.2.2, status := r₂.1 }
      let log₃ := log₂ ++ [.lpFailedTryingScan, .scanResult r₂.1]
      if r₂.1 = BSEC_OK then
        { status := 0, state := s₂, configCalled := true,
          subCalls := [call₁, call₂], log := log₃ ++ [.scanSuccess] }
      else
        let s₃ : WrapperState :=
          { s₂ with requested_virtual_sensors :=
              setAllRates s₂.requested_virtual_sensors .ULP }
        let r₃ := e.update_subscription s₃.requested_virtual_sensors r₂.2.2
        let call₃ : SubscriptionCall :=
          { requested := s₃.requested_virtual_sensors,
            n_requested := s₃.n_requested_virtual_sensors,
            capacity := r₂.2.2, status := r₃.1 }
        { status := r₃.1, state := s₃, configCalled := true,
          subCalls := [call₁, call₂, call₃],
          log := log₃ ++ [.scanFailedFallingBackToUlp] }

/-- The bundle with every rate set to SCAN, as the static array holds it at
the second subscription call. -/
def scanBundle : List bsec_sensor_configuration_t := setAllRates lpBundle .SCAN

/-- The bundle with every rate set to ULP, as the static array holds it at the
third subscription call. -/
def ulpBundle : List bsec_sensor_configuration_t := setAllRates scanBundle .ULP

/-- The engine's response to the first (LP) subscription call. -/
def lpAttempt (e : Engine) : Int × List bsec_sensor_configuration_t × Nat :=
  e.update_subscription lpBundle BSEC_MAX_PHYSICAL_SENSOR

/-- The engine's response to the second (SCAN) subscription call; its capacity
count is the count the engine wrote on the LP call. -/
def scanAttempt (e : Engine) : Int × List bsec_sensor_configuration_t × Nat :=
  e.update_subscription scanBundle (lpAttempt e).2.2

/-- The engine's response to the third (ULP) subscription call; its capacity
count is the count the engine wrote on the SCAN call. -/
def ulpAttempt (e : Engine) : Int × List bsec_sensor_configuration_t × Nat :=
  e.update_subscription ulpBundle (scanAttempt e).2.2

/-- Result of `py_bsec_do_steps`: the returned status, the final values of the
four out-parameters, and the input list handed to `bsec_do_steps`. -/
structure StepResult where
  status : Int
  iaq : Rat
  iaq_accuracy : Int
  co2_equivalent : Rat
  breath_voc_equivalent : Rat
  sent : List bsec_input_t
  deriving DecidableEq, Repr

/-- Lines 133–150: the four-entry input array handed to `bsec_do_steps`;
pressure is converted hPa→Pa by multiplying by 100, the other signals pass
through, and all four carry `timestamp_ns`. -/
def stepInputs (temperature humidity pressure gas_resistance : Rat)
    (timestamp_ns : Nat) : List bsec_input_t :=
  [⟨.TEMPERATURE, temperature, timestamp_ns⟩,
   ⟨.HUMIDITY, humidity, timestamp_ns⟩,
   ⟨.PRESSURE, pressure * 100, timestamp_ns⟩,
   ⟨.GASRESISTOR, gas_resistance, timestamp_ns⟩]

/-- Lines 171–182: the `switch` body applied to one engine output. -/
def applyOutput (r : StepResult) (o : bsec_output_t) : StepResult :=
  match o.sensor_id with
  | .IAQ => { r with iaq := o.signal, iaq_accuracy := (o.accuracy : Int) }
  | .CO2_EQUIVALENT => { r with co2_equivalent := o.signal }
  | .BREATH_VOC_EQUIVALENT => { r with breath_voc_equivalent := o.signal }
  | _ => r

/-- Lines 170–183: the loop over the `n_outputs` entries the engine wrote. -/
def applyOutputs (outs : List bsec_output_t) (r : StepResult) : StepResult :=
  match outs with
  | [] => r
  | o :: rest => applyOutputs rest (applyOutput r o)

/-- `py_bsec_do_steps` (lines 128–189).  The caller-supplied contents of the
four out-parameters enter as `iaq₀ acc₀ co2₀ voc₀` and the result carries
their final values, so "left untouched" is expressible. -/
def py_bsec_do_steps (e : Engine)
    (temperature humidity pressure gas_resistance : Rat) (timestamp_ns : Nat)
    (iaq₀ : Rat) (acc₀ : Int) (co2₀ voc₀ : Rat) : StepResult :=
  let inputs := stepInputs temperature humidity pressure gas_resistance
      timestamp_ns
  let res := e.do_steps inputs 8
  if res.1 ≠ BSEC_OK then
    { status := res.1, iaq := iaq₀, iaq_accuracy := acc₀,
      co2_equivalent := co2₀, breath_voc_equivalent := voc₀, sent := inputs }
  else
    applyOutputs res.2
      { status := 0, iaq := 25, iaq_accuracy := 0, co2_equivalent := 400,
        breath_voc_equivalent := 0.5, sent := inputs }

/-! ### Characterization of `py_bsec_init` by the engine's responses -/

/-- Early return of `py_bsec_init` when `bsec_init` fails (lines 16–18):
the status is surfaced, nothing else happens. -/
theorem py_bsec_init_of_init_failure (e : Engine) (s : WrapperState)
    (h : e.init_status ≠ BSEC_OK) :
    py_bsec_init e s =
      { status := e.init_status, state := s, configCalled := false,
        subCalls := [], log := [] } := by
  simp [py_bsec_init, h]

/-- `py_bsec_init` when the LP subscription is accepted. -/
theorem py_bsec_init_of_lp_ok (e : Engine) (s : WrapperState)
    (h : e.init_status = BSEC_OK) (h₁ : (lpAttempt e).1 = BSEC_OK) :
    py_bsec_init e s =
      { status := 0, state := ⟨lpBundle, 8⟩, configCalled := true,
        subCalls := [⟨lpBundle, 8, BSEC_MAX_PHYSICAL_SENSOR, (lpAttempt e).1⟩],
        log := logConfig e ++ [.lpResult (lpAttempt e).1, .lpSuccess] } := by
  simp only [py_bsec_init, lpAttempt] at *
  simp [h, h₁]

/-- `py_bsec_init` when LP is rejected and SCAN is accepted. -/
theorem py_bsec_init_of_scan_ok (e : Engine) (s : WrapperState)
    (h : e.init_status = BSEC_OK) (h₁ : (lpAttempt e).1 ≠ BSEC_OK)
    (h₂ : (scanAttempt e).1 = BSEC_OK) :
    py_bsec_init e s =
      { status := 0, state := ⟨scanBundle, 8⟩, configCalled := true,
        subCalls :=
          [⟨lpBundle, 8, BSEC_MAX_PHYSICAL_SENSOR, (lpAttempt e).1⟩,
           ⟨scanBundle, 8, (lpAttempt e).2.2, (scanAttempt e).1⟩],
        log := logConfig e ++ [.lpResult (lpAttempt e).1, .lpFailedTryingScan,
          .scanResult (scanAttempt e).1, .scanSuccess] } := by
  simp only [py_bsec_init, lpAttempt, scanAttempt, scanBundle] at *
  simp [h, h₁, h₂]

/-- `py_bsec_init` when LP and SCAN are rejected: the ULP attempt's status is
returned whatever it is. -/
theorem py_bsec_init_of_scan_failed (e : Engine) (s : WrapperState)
    (h : e.init_status = BSEC_OK) (h₁ : (lpAttempt e).1 ≠ BSEC_OK)
    (h₂ : (scanAttempt e).1 ≠ BSEC_OK) :
    py_bsec_init e s =
      { status := (ulpAttempt e).1, state := ⟨ulpBundle, 8⟩,
        configCalled := true,
        subCalls :=
          [⟨lpBundle, 8, BSEC_MAX_PHYSICAL_SENSOR, (lpAttempt e).1⟩,
           ⟨scanBundle, 8, (lpAttempt e).2.2, (scanAttempt e).1⟩,
           ⟨ulpBundle, 8, (scanAttempt e).2.2, (ulpAttempt e).1⟩],
        log := logConfig e ++ [.lpResult (lpAttempt e).1, .lpFailedTryingScan,
          .scanResult (scanAttempt e).1, .scanFailedFallingBackToUlp] } := by
  simp only [py_bsec_init, lpAttempt, scanAttempt, ulpAttempt, scanBundle,
    ulpBundle] at *
  simp [h, h₁, h₂]

/-! ### Helper lemmas about the output loop -/

theorem applyOutput_sent (r : StepResult) (o : bsec_output_t) :
    (applyOutput r o).sent = r.sent := by
  rcases o with ⟨id, sig, a⟩
  cases id <;> rfl

theorem applyOutputs_sent (outs : List bsec_output_t) (r : StepResult) :
    (applyOutputs outs r).sent = r.sent := by
  induction outs generalizing r with
  | nil => rfl
  | cons o rest ih => simp [applyOutputs, ih, applyOutput_sent]

theorem applyOutput_co2 (r : StepResult) (o : bsec_output_t)
    (h : o.sensor_id ≠ SensorId.CO2_EQUIVALENT) :
    (applyOutput r o).co2_equivalent = r.co2_equivalent := by
  rcases o with ⟨id, sig, a⟩
  cases id <;> simp_all [applyOutput]

theorem applyOutputs_co2 (outs : List bsec_output_t) (r : StepResult)
    (h : ∀ o ∈ outs, o.sensor_id ≠ SensorId.CO2_EQUIVALENT) :
    (applyOutputs outs r).co2_equivalent = r.co2_equivalent := by
  induction outs generalizing r with
  | nil => rfl
  | cons o rest ih =>
      rw [applyOutputs, ih _ fun x hx => h x (List.mem_cons_of_mem o hx),
        applyOutput_co2 r o (h o (List.mem_cons_self o rest))]

theorem applyOutput_iaq (r : StepResult) (o : bsec_output_t)
    (h : o.sensor_id ≠ SensorId.IAQ) :
    (applyOutput r o).iaq = r.iaq ∧
    (applyOutput r o).iaq_accuracy = r.iaq_accuracy := by
  rcases o with ⟨id, sig, a⟩
  cases id <;> simp_all [applyOutput]

theorem applyOutputs_iaq (outs : List bsec_output_t) (r : StepResult)
    (h : ∀ o ∈ outs, o.sensor_id ≠ SensorId.IAQ) :
    (applyOutputs outs r).iaq = r.iaq ∧
    (applyOutputs outs r).iaq_accuracy = r.iaq_accuracy := by
  induction outs generalizing r with
  | nil => exact ⟨rfl, rfl⟩
  | cons o rest ih =>
      rw [applyOutputs]
      rcases ih (applyOutput r o) fun x hx => h x (List.mem_cons_of_mem o hx)
        with ⟨h1, h2⟩
      rcases applyOutput_iaq r o (h o (List.mem_cons_self o rest)) with ⟨h3, h4⟩
      exact ⟨h1.trans h3, h2.trans h4⟩

theorem applyOutput_voc (r : StepResult) (o : bsec_output_t)
    (h : o.sensor_id ≠ SensorId.BREATH_VOC_EQUIVALENT) :
    (applyOutput r o).breath_voc_equivalent = r.breath_voc_equivalent := by
  rcases o with ⟨id, sig, a⟩
  cases id <;> simp_all [applyOutput]

theorem applyOutputs_voc (outs : List bsec_output_t) (r : StepResult)
    (h : ∀ o ∈ outs, o.sensor_id ≠ SensorId.BREATH_VOC_EQUIVALENT) :
    (applyOutputs outs r).breath_voc_equivalent = r.breath_voc_equivalent := by
  induction outs generalizing r with
  | nil => rfl
  | cons o rest ih =>
      rw [applyOutputs, ih _ fun x hx => h x (List.mem_cons_of_mem o hx),
        applyOutput_voc r o (h o (List.mem_cons_self o rest))]

/-! ### Concrete engines used as witnesses -/

/-- Engine whose basic initialization fails with status `-1`. -/
def engInitFail : Engine :=
  ⟨-1, 0, fun _ n => (0, [], n), fun _ _ => (0, [])⟩

/-- Engine that accepts everything; its subscription calls echo the capacity
count back unchanged. -/
def engAcceptLP : Engine :=
  ⟨0, 0, fun _ n => (0, [], n), fun _ _ => (0, [])⟩

/-- Engine that rejects every subscription request with status `-2`. -/
def engRejectAll : Engine :=
  ⟨0, 0, fun _ n => (-2, [], n), fun _ _ => (0, [])⟩

/-- Engine that rejects every subscription request with status `1` and writes
`4` through the in/out `n_required_sensor_settings` pointer. -/
def engWrites4 : Engine :=
  ⟨0, 0, fun _ _ => (1, [], 4), fun _ _ => (0, [])⟩

/-- Engine whose configuration load fails with status `3`. -/
def engCfgFail : Engine :=
  ⟨0, 3, fun _ n => (0, [], n), fun _ _ => (0, [])⟩

/-- Engine whose step call fails with status `-3`. -/
def engStepFail : Engine :=
  ⟨0, 0, fun _ n => (0, [], n), fun _ _ => (-3, [])⟩

/-- Engine whose step call succeeds returning only an IAQ output of
`(42.0, accuracy 3)`. -/
def engStepIAQ : Engine :=
  ⟨0, 0, fun _ n => (0, [], n), fun _ _ => (0, [⟨.IAQ, 42, 3⟩])⟩

/-! ### The claims -/

/-- C9: if `bsec_init` returns a non-success status, `py_bsec_init` returns
that status immediately: no configuration load and no subscription-update
call is attempted, and the static bundle array is left unmodified. -/
theorem init_engine_failure_propagates (e : Engine) (s : WrapperState)
    (h : e.init_status ≠ BSEC_OK) :
    (py_bsec_init e s).status = e.init_status ∧
    (py_bsec_init e s).configCalled = false ∧
    (py_bsec_init e s).subCalls = [] ∧
    (py_bsec_init e s).state = s := by
  rw [py_bsec_init_of_init_failure e s h]
  exact ⟨rfl, rfl, rfl, rfl⟩

theorem init_engine_failure_propagates_witness :
    engInitFail.init_status ≠ BSEC_OK ∧
    ((py_bsec_init engInitFail initialState).status = engInitFail.init_status ∧
     (py_bsec_init engInitFail initialState).configCalled = false ∧
     (py_bsec_init engInitFail initialState).subCalls = [] ∧
     (py_bsec_init engInitFail initialState).state = initialState) :=
  ⟨by decide, init_engine_failure_propagates engInitFail initialState (by decide)⟩

/-- C8: a failure of `bsec_set_configuration` is recovered locally: the
status, subscription trace and final statics of `py_bsec_init` are exactly
those of the run in which configuration load succeeded, and the subscription
negotiation is reached (at least one subscription call is made). -/
theorem init_config_failure_nonfatal (e : Engine) (s : WrapperState)
    (hinit : e.init_status = BSEC_OK)
    (hcfg : e.set_configuration_status ≠ BSEC_OK) :
    (py_bsec_init e s).status =
      (py_bsec_init { e with set_configuration_status := BSEC_OK } s).status ∧
    (py_bsec_init e s).subCalls =
      (py_bsec_init { e with set_configuration_status := BSEC_OK } s).subCalls ∧
    (py_bsec_init e s).state =
      (py_bsec_init { e with set_configuration_status := BSEC_OK } s).state ∧
    1 ≤ (py_bsec_init e s).subCalls.length := by
  by_cases h₁ : (lpAttempt e).1 = BSEC_OK
  · rw [py_bsec_init_of_lp_ok e s hinit h₁,
      py_bsec_init_of_lp_ok { e with set_configuration_status := BSEC_OK } s
        hinit h₁]
    exact ⟨rfl, rfl, rfl, by simp⟩
  · by_cases h₂ : (scanAttempt e).1 = BSEC_OK
    · rw [py_bsec_init_of_scan_ok e s hinit h₁ h₂,
        py_bsec_init_of_scan_ok { e with set_configuration_status := BSEC_OK }
          s hinit h₁ h₂]
      exact ⟨rfl, rfl, rfl, by simp⟩
    · rw [py_bsec_init_of_scan_failed e s hinit h₁ h₂,
        py_bsec_init_of_scan_failed
          { e with set_configuration_status := BSEC_OK } s hinit h₁ h₂]
      exact ⟨rfl, rfl, rfl, by simp⟩

theorem init_config_failure_nonfatal_witness :
    engCfgFail.init_status = BSEC_OK ∧
    engCfgFail.set_configuration_status ≠ BSEC_OK ∧
    ((py_bsec_init engCfgFail initialState).status =
      (py_bsec_init { engCfgFail with set_configuration_status := BSEC_OK }
        initialState).status ∧
     (py_bsec_init engCfgFail initialState).subCalls =
      (py_bsec_init { engCfgFail with set_configuration_status := BSEC_OK }
        initialState).subCalls ∧
     (py_bsec_init engCfgFail initialState).state =
      (py_bsec_init { engCfgFail with set_configuration_status := BSEC_OK }
        initialState).state ∧
     1 ≤ (py_bsec_init engCfgFail initialState).subCalls.length) :=
  ⟨by decide, by decide,
   init_config_failure_nonfatal engCfgFail initialState (by decide) (by decide)⟩

/-- C3: if the engine's step call returns a non-success status,
`py_bsec_do_steps` returns that status and each of the four out-parameters
retains the caller-supplied value — no partial write happens before the
status check. -/
theorem do_steps_failure_leaves_outputs (e : Engine)
    (temperature humidity pressure gas_resistance : Rat) (timestamp_ns : Nat)
    (iaq₀ : Rat) (acc₀ : Int) (co2₀ voc₀ : Rat)
    (hfail : (e.do_steps (stepInputs temperature humidity pressure
        gas_resistance timestamp_ns) 8).1 ≠ BSEC_OK) :
    py_bsec_do_steps e temperature humidity pressure gas_resistance
        timestamp_ns iaq₀ acc₀ co2₀ voc₀ =
      { status := (e.do_steps (stepInputs temperature humidity pressure
            gas_resistance timestamp_ns) 8).1,
        iaq := iaq₀, iaq_accuracy := acc₀, co2_equivalent := co2₀,
        breath_voc_equivalent := voc₀,
        sent := stepInputs temperature humidity pressure gas_resistance
            timestamp_ns } := by
  simp [py_bsec_do_steps, hfail]

theorem do_steps_failure_leaves_outputs_witness :
    (engStepFail.do_steps (stepInputs 22.5 45 1013.25 50000 77) 8).1 ≠
        BSEC_OK ∧
    py_bsec_do_steps engStepFail 22.5 45 1013.25 50000 77 111 222 333 444 =
      { status := (engStepFail.do_steps (stepInputs 22.5 45 1013.25 50000 77)
            8).1,
        iaq := 111, iaq_accuracy := 222, co2_equivalent := 333,
        breath_voc_equivalent := 444,
        sent := stepInputs 22.5 45 1013.25 50000 77 } :=
  ⟨by decide,
   do_steps_failure_leaves_outputs engStepFail 22.5 45 1013.25 50000 77
     111 222 333 444 (by decide)⟩

/-- C5: the pressure input handed to the engine equals the caller's pressure
argument multiplied by 100 (hPa→Pa), while temperature, humidity and gas
resistance are passed unmodified. -/
theorem do_steps_pressure_times_100 (e : Engine)
    (temperature humidity pressure gas_resistance : Rat) (timestamp_ns : Nat)
    (iaq₀ : Rat) (acc₀ : Int) (co2₀ voc₀ : Rat) :
    (py_bsec_do_steps e temperature humidity pressure gas_resistance
        timestamp_ns iaq₀ acc₀ co2₀ voc₀).sent =
      [⟨.TEMPERATURE, temperature, timestamp_ns⟩,
       ⟨.HUMIDITY, humidity, timestamp_ns⟩,
       ⟨.PRESSURE, pressure * 100, timestamp_ns⟩,
       ⟨.GASRESISTOR, gas_resistance, timestamp_ns⟩] := by
  by_cases hf : (e.do_steps (stepInputs temperature humidity pressure
      gas_resistance timestamp_ns) 8).1 = BSEC_OK
  all_goals simp only [stepInputs] at hf
  · simp [py_bsec_do_steps, hf, applyOutputs_sent, stepInputs]
  · simp [py_bsec_do_steps, hf, stepInputs]

/-- C1: the three rate tiers are tried in the fixed order LP, SCAN, ULP: a
tier whose subscription call succeeds is the last call made and makes
`py_bsec_init` return 0; a tier beyond the first is attempted only when its
predecessor failed, and whenever an attempted tier other than the last (ULP)
fails, the next tier is attempted. -/
theorem init_tiers_short_circuit (e : Engine) (s : WrapperState)
    (hinit : e.init_status = BSEC_OK) :
    1 ≤ (py_bsec_init e s).subCalls.length ∧
    (py_bsec_init e s).subCalls.length ≤ 3 ∧
    (∀ i (h : i < (py_bsec_init e s).subCalls.length),
        ((py_bsec_init e s).subCalls.get ⟨i, h⟩).status = BSEC_OK →
        (py_bsec_init e s).subCalls.length = i + 1 ∧
        (py_bsec_init e s).status = 0) ∧
    (∀ i (h : i + 1 < (py_bsec_init e s).subCalls.length),
        ((py_bsec_init e s).subCalls.get ⟨i, Nat.lt_of_succ_lt h⟩).status ≠
          BSEC_OK) ∧
    (∀ i (h : i < (py_bsec_init e s).subCalls.length),
        ((py_bsec_init e s).subCalls.get ⟨i, h⟩).status ≠ BSEC_OK → i < 2 →
        i + 1 < (py_bsec_init e s).subCalls.length) := by
  by_cases h₁ : (lpAttempt e).1 = BSEC_OK
  · rw [py_bsec_init_of_lp_ok e s hinit h₁]
    refine ⟨by simp, by simp, ?_, ?_, ?_⟩
    · intro i h hst
      simp only [List.length_singleton] at h
      obtain rfl : i = 0 := Nat.lt_one_iff.mp h
      exact ⟨rfl, rfl⟩
    · intro i h
      simp only [List.length_singleton] at h
      omega
    · intro i h hst hi
      simp only [List.length_singleton] at h
      obtain rfl : i = 0 := Nat.lt_one_iff.mp h
      exact absurd h₁ hst
  · by_cases h₂ : (scanAttempt e).1 = BSEC_OK
    · rw [py_bsec_init_of_scan_ok e s hinit h₁ h₂]
      refine ⟨by simp, by simp, ?_, ?_, ?_⟩
      · intro i h hst
        simp only [List.length_cons, List.length_nil] at h
        obtain rfl | rfl : i = 0 ∨ i = 1 := by omega
        · exact absurd hst h₁
        · exact ⟨rfl, rfl⟩
      · intro i h
        simp only [List.length_cons, List.length_nil] at h
        obtain rfl : i = 0 := by omega
        exact h₁
      · intro i h hst hi
        simp only [List.length_cons, List.length_nil] at h
        obtain rfl | rfl : i = 0 ∨ i = 1 := by omega
        · simp
        · exact absurd h₂ hst
    · rw [py_bsec_init_of_scan_failed e s hinit h₁ h₂]
      refine ⟨by simp, by simp, ?_, ?_, ?_⟩
      · intro i h hst
        simp only [List.length_cons, List.length_nil] at h
        obtain rfl | rfl | rfl : i = 0 ∨ i = 1 ∨ i = 2 := by omega
        · exact absurd hst h₁
        · exact absurd hst h₂
        · exact ⟨rfl, hst⟩
      · intro i h
        simp only [List.length_cons, List.length_nil] at h
        obtain rfl | rfl : i = 0 ∨ i = 1 := by omega
        · exact h₁
        · exact h₂
      · intro i h hst hi
        simp only [List.length_cons, List.length_nil] at h
        obtain rfl | rfl | rfl : i = 0 ∨ i = 1 ∨ i = 2 := by omega
        · simp
        · simp
        · omega

theorem init_tiers_short_circuit_witness :
    engAcceptLP.init_status = BSEC_OK ∧
    (py_bsec_init engAcceptLP initialState).subCalls.length = 0 + 1 ∧
    (py_bsec_init engAcceptLP initialState).status = 0 :=
  ⟨rfl,
   (init_tiers_short_circuit engAcceptLP initialState rfl).2.2.1 0 (by decide)
     (by decide)⟩

/-- C2: if the engine rejects all three tiers, `py_bsec_init` returns exactly
the status of the ULP (third) subscription call, that status is not success,
and neither success diagnostic is printed. -/
theorem init_all_tiers_rejected (e : Engine) (s : WrapperState)
    (hinit : e.init_status = BSEC_OK)
    (h₁ : (lpAttempt e).1 ≠ BSEC_OK) (h₂ : (scanAttempt e).1 ≠ BSEC_OK)
    (h₃ : (ulpAttempt e).1 ≠ BSEC_OK) :
    (py_bsec_init e s).status = (ulpAttempt e).1 ∧
    (py_bsec_init e s).status ≠ BSEC_OK ∧
    LogEvent.lpSuccess ∉ (py_bsec_init e s).log ∧
    LogEvent.scanSuccess ∉ (py_bsec_init e s).log := by
  rw [py_bsec_init_of_scan_failed e s hinit h₁ h₂]
  refine ⟨rfl, h₃, ?_, ?_⟩ <;>
    by_cases hc : e.set_configuration_status ≠ BSEC_OK <;>
      simp [logConfig, hc]

theorem init_all_tiers_rejected_witness :
    engRejectAll.init_status = BSEC_OK ∧
    (lpAttempt engRejectAll).1 ≠ BSEC_OK ∧
    (scanAttempt engRejectAll).1 ≠ BSEC_OK ∧
    (ulpAttempt engRejectAll).1 ≠ BSEC_OK ∧
    ((py_bsec_init engRejectAll initialState).status =
        (ulpAttempt engRejectAll).1 ∧
     (py_bsec_init engRejectAll initialState).status ≠ BSEC_OK ∧
     LogEvent.lpSuccess ∉ (py_bsec_init engRejectAll initialState).log ∧
     LogEvent.scanSuccess ∉ (py_bsec_init engRejectAll initialState).log) :=
  ⟨by decide, by decide, by decide, by decide,
   init_all_tiers_rejected engRejectAll initialState (by decide) (by decide)
     (by decide) (by decide)⟩

/-- The fixed identifiers of the eight-entry bundle, in array order. -/
def bundleIds : List SensorId :=
  [.IAQ, .STATIC_IAQ, .CO2_EQUIVALENT, .BREATH_VOC_EQUIVALENT,
   .COMPENSATED_GAS, .GAS_PERCENTAGE, .STABILIZATION_STATUS, .RUN_IN_STATUS]

/-- The rate of the tier attempted by the `i`-th subscription call. -/
def tierRate : Nat → SampleRate
  | 0 => .LP
  | 1 => .SCAN
  | _ => .ULP

/-- C7: every subscription call of `py_bsec_init` passes a bundle of exactly
8 entries whose identifiers are the fixed set in fixed order, and all eight
entries carry the same sample rate, namely the current tier's rate (LP, then
SCAN, then ULP). -/
theorem init_bundle_fixed_ids_uniform_rate (e : Engine) (s : WrapperState)
    (hinit : e.init_status = BSEC_OK) :
    ∀ i (h : i < (py_bsec_init e s).subCalls.length),
      (((py_bsec_init e s).subCalls.get ⟨i, h⟩).requested).length = 8 ∧
      (((py_bsec_init e s).subCalls.get ⟨i, h⟩).requested).map
          bsec_sensor_configuration_t.sensor_id = bundleIds ∧
      ∀ c ∈ ((py_bsec_init e s).subCalls.get ⟨i, h⟩).requested,
        c.sample_rate = tierRate i := by
  by_cases h₁ : (lpAttempt e).1 = BSEC_OK
  · rw [py_bsec_init_of_lp_ok e s hinit h₁]
    intro i h
    simp only [List.length_singleton] at h
    obtain rfl : i = 0 := Nat.lt_one_iff.mp h
    refine ⟨rfl, rfl, ?_⟩
    show ∀ c ∈ lpBundle, c.sample_rate = tierRate 0
    decide
  · by_cases h₂ : (scanAttempt e).1 = BSEC_OK
    · rw [py_bsec_init_of_scan_ok e s hinit h₁ h₂]
      intro i h
      simp only [List.length_cons, List.length_nil] at h
      obtain rfl | rfl : i = 0 ∨ i = 1 := by omega
      · refine ⟨rfl, rfl, ?_⟩
        show ∀ c ∈ lpBundle, c.sample_rate = tierRate 0
        decide
      · refine ⟨rfl, rfl, ?_⟩
        show ∀ c ∈ scanBundle, c.sample_rate = tierRate 1
        decide
    · rw [py_bsec_init_of_scan_failed e s hinit h₁ h₂]
      intro i h
      simp only [List.length_cons, List.length_nil] at h
      obtain rfl | rfl | rfl : i = 0 ∨ i = 1 ∨ i = 2 := by omega
      · refine ⟨rfl, rfl, ?_⟩
        show ∀ c ∈ lpBundle, c.sample_rate = tierRate 0
        decide
      · refine ⟨rfl, rfl, ?_⟩
        show ∀ c ∈ scanBundle, c.sample_rate = tierRate 1
        decide
      · refine ⟨rfl, rfl, ?_⟩
        show ∀ c ∈ ulpBundle, c.sample_rate = tierRate 2
        decide

theorem init_bundle_fixed_ids_uniform_rate_witness :
    engRejectAll.init_status = BSEC_OK ∧
    ((((py_bsec_init engRejectAll initialState).subCalls.get
        ⟨1, by decide⟩).requested).length = 8 ∧
     (((py_bsec_init engRejectAll initialState).subCalls.get
        ⟨1, by decide⟩).requested).map
          bsec_sensor_configuration_t.sensor_id = bundleIds ∧
     ∀ c ∈ ((py_bsec_init engRejectAll initialState).subCalls.get
        ⟨1, by decide⟩).requested,
        c.sample_rate = tierRate 1) :=
  ⟨rfl,
   init_bundle_fixed_ids_uniform_rate engRejectAll initialState rfl 1
     (by decide)⟩

/-! C6 is refuted as stated: the wrapper passes the capacity count through the
in/out `n_required_sensor_settings` pointer without resetting it between
tiers, so from the second call on the capacity count is whatever the engine
wrote on the preceding call, not `BSEC_MAX_PHYSICAL_SENSOR`. -/

/-- C6 counterexample: with an engine that rejects LP writing `4` through the
in/out count pointer, the SCAN call's capacity count is 4, not
`BSEC_MAX_PHYSICAL_SENSOR`. -/
theorem init_capacity_claim_counterexample :
    ¬ (∀ c ∈ (py_bsec_init engWrites4 initialState).subCalls,
        c.capacity = BSEC_MAX_PHYSICAL_SENSOR) := by decide

/-- C6 amended: every subscription call passes the 8-entry bundle (with count
8); the first call's capacity count is `BSEC_MAX_PHYSICAL_SENSOR`, and each
later call's capacity count is the value the engine wrote through the in/out
pointer on the preceding call (the count is not reset between tiers). -/
theorem init_capacity_amended (e : Engine) (s : WrapperState)
    (hinit : e.init_status = BSEC_OK) :
    (∀ c ∈ (py_bsec_init e s).subCalls,
        c.requested.length = 8 ∧ c.n_requested = 8) ∧
    (∀ h0 : 0 < (py_bsec_init e s).subCalls.length,
        ((py_bsec_init e s).subCalls.get ⟨0, h0⟩).capacity =
          BSEC_MAX_PHYSICAL_SENSOR) ∧
    (∀ h1 : 1 < (py_bsec_init e s).subCalls.length,
        ((py_bsec_init e s).subCalls.get ⟨1, h1⟩).capacity =
          (lpAttempt e).2.2) ∧
    (∀ h2 : 2 < (py_bsec_init e s).subCalls.length,
        ((py_bsec_init e s).subCalls.get ⟨2, h2⟩).capacity =
          (scanAttempt e).2.2) := by
  by_cases h₁ : (lpAttempt e).1 = BSEC_OK
  · rw [py_bsec_init_of_lp_ok e s hinit h₁]
    refine ⟨?_, fun _ => rfl, ?_, ?_⟩
    · intro c hc
      simp only [List.mem_singleton] at hc
      subst hc
      exact ⟨rfl, rfl⟩
    · intro h1
      simp only [List.length_singleton] at h1
      omega
    · intro h2
      simp only [List.length_singleton] at h2
      omega
  · by_cases h₂ : (scanAttempt e).1 = BSEC_OK
    · rw [py_bsec_init_of_scan_ok e s hinit h₁ h₂]
      refine ⟨?_, fun _ => rfl, fun _ => rfl, ?_⟩
      · intro c hc
        simp only [List.mem_cons, List.mem_singleton] at hc
        rcases hc with rfl | rfl | h
        · exact ⟨rfl, rfl⟩
        · exact ⟨rfl, rfl⟩
        · cases h
      · intro h2
        simp only [List.length_cons, List.length_nil] at h2
        omega
    · rw [py_bsec_init_of_scan_failed e s hinit h₁ h₂]
      refine ⟨?_, fun _ => rfl, fun _ => rfl, fun _ => rfl⟩
      intro c hc
      simp only [List.mem_cons, List.mem_singleton] at hc
      rcases hc with rfl | rfl | rfl | h
      · exact ⟨rfl, rfl⟩
      · exact ⟨rfl, rfl⟩
      · exact ⟨rfl, rfl⟩
      · cases h

theorem init_capacity_amended_witness :
    engWrites4.init_status = BSEC_OK ∧
    ((py_bsec_init engWrites4 initialState).subCalls.get
        ⟨1, by decide⟩).capacity = (lpAttempt engWrites4).2.2 :=
  ⟨rfl, (init_capacity_amended engWrites4 initialState rfl).2.2.1 (by decide)⟩

/-- C4: on step success the four outputs start from the fixed defaults
`iaq = 25`, `iaq_accuracy = 0`, `co2_equivalent = 400`,
`breath_voc_equivalent = 0.5`, and each engine-returned output overwrites its
default by matching `sensor_id`; an output bundle omitting an identifier
leaves that default, and the bundle `[IAQ (42, accuracy 3)]` yields
`(42, 3, 400, 0.5)`. -/
theorem do_steps_success_defaults_overwrite (e : Engine)
    (temperature humidity pressure gas_resistance : Rat) (timestamp_ns : Nat)
    (iaq₀ : Rat) (acc₀ : Int) (co2₀ voc₀ : Rat)
    (hok : (e.do_steps (stepInputs temperature humidity pressure
        gas_resistance timestamp_ns) 8).1 = BSEC_OK) :
    py_bsec_do_steps e temperature humidity pressure gas_resistance
        timestamp_ns iaq₀ acc₀ co2₀ voc₀ =
      applyOutputs (e.do_steps (stepInputs temperature humidity pressure
          gas_resistance timestamp_ns) 8).2
        { status := 0, iaq := 25, iaq_accuracy := 0, co2_equivalent := 400,
          breath_voc_equivalent := 0.5,
          sent := stepInputs temperature humidity pressure gas_resistance
              timestamp_ns } ∧
    ((∀ o ∈ (e.do_steps (stepInputs temperature humidity pressure
          gas_resistance timestamp_ns) 8).2,
        o.sensor_id ≠ SensorId.CO2_EQUIVALENT) →
      (py_bsec_do_steps e temperature humidity pressure gas_resistance
          timestamp_ns iaq₀ acc₀ co2₀ voc₀).co2_equivalent = 400) ∧
    ((∀ o ∈ (e.do_steps (stepInputs temperature humidity pressure
          gas_resistance timestamp_ns) 8).2,
        o.sensor_id ≠ SensorId.IAQ) →
      (py_bsec_do_steps e temperature humidity pressure gas_resistance
          timestamp_ns iaq₀ acc₀ co2₀ voc₀).iaq = 25 ∧
      (py_bsec_do_steps e temperature humidity pressure gas_resistance
          timestamp_ns iaq₀ acc₀ co2₀ voc₀).iaq_accuracy = 0) ∧
    ((∀ o ∈ (e.do_steps (stepInputs temperature humidity pressure
          gas_resistance timestamp_ns) 8).2,
        o.sensor_id ≠ SensorId.BREATH_VOC_EQUIVALENT) →
      (py_bsec_do_steps e temperature humidity pressure gas_resistance
          timestamp_ns iaq₀ acc₀ co2₀ voc₀).breath_voc_equivalent = 0.5) ∧
    ((e.do_steps (stepInputs temperature humidity pressure gas_resistance
          timestamp_ns) 8).2 = [⟨SensorId.IAQ, 42, 3⟩] →
      (py_bsec_do_steps e temperature humidity pressure gas_resistance
          timestamp_ns iaq₀ acc₀ co2₀ voc₀).iaq = 42 ∧
      (py_bsec_do_steps e temperature humidity pressure gas_resistance
          timestamp_ns iaq₀ acc₀ co2₀ voc₀).iaq_accuracy = 3 ∧
      (py_bsec_do_steps e temperature humidity pressure gas_resistance
          timestamp_ns iaq₀ acc₀ co2₀ voc₀).co2_equivalent = 400 ∧
      (py_bsec_do_steps e temperature humidity pressure gas_resistance
          timestamp_ns iaq₀ acc₀ co2₀ voc₀).breath_voc_equivalent = 0.5) := by
  have heq : py_bsec_do_steps e temperature humidity pressure gas_resistance
      timestamp_ns iaq₀ acc₀ co2₀ voc₀ =
      applyOutputs (e.do_steps (stepInputs temperature humidity pressure
          gas_resistance timestamp_ns) 8).2
        { status := 0, iaq := 25, iaq_accuracy := 0, co2_equivalent := 400,
          breath_voc_equivalent := 0.5,
          sent := stepInputs temperature humidity pressure gas_resistance
              timestamp_ns } := by
    have hok' := hok
    simp only [stepInputs] at hok'
    simp [py_bsec_do_steps, stepInputs, hok']
  refine ⟨heq, ?_, ?_, ?_, ?_⟩
  · intro hno
    rw [heq, applyOutputs_co2 _ _ hno]
  · intro hno
    rw [heq]
    exact applyOutputs_iaq _ _ hno
  · intro hno
    rw [heq, applyOutputs_voc _ _ hno]
  · intro hout
    rw [heq, hout]
    refine ⟨rfl, rfl, rfl, rfl⟩

theorem do_steps_success_defaults_overwrite_witness :
    (engStepIAQ.do_steps (stepInputs 22.5 45 1013.25 50000 77) 8).1 =
        BSEC_OK ∧
    (engStepIAQ.do_steps (stepInputs 22.5 45 1013.25 50000 77) 8).2 =
        [⟨SensorId.IAQ, 42, 3⟩] ∧
    ((py_bsec_do_steps engStepIAQ 22.5 45 1013.25 50000 77 0 0 0 0).iaq = 42 ∧
     (py_bsec_do_steps engStepIAQ 22.5 45 1013.25 50000 77 0 0 0
        0).iaq_accuracy = 3 ∧
     (py_bsec_do_steps engStepIAQ 22.5 45 1013.25 50000 77 0 0 0
        0).co2_equivalent = 400 ∧
     (py_bsec_do_steps engStepIAQ 22.5 45 1013.25 50000 77 0 0 0
        0).breath_voc_equivalent = 0.5) :=
  ⟨rfl, rfl,
   (do_steps_success_defaults_overwrite engStepIAQ 22.5 45 1013.25 50000 77
      0 0 0 0 rfl).2.2.2.2 rfl⟩

/-- C10: all four inputs handed to the engine's step call carry the identical
timestamp, equal to the caller's `timestamp_ns` argument. -/
theorem do_steps_uniform_timestamp (e : Engine)
    (temperature humidity pressure gas_resistance : Rat) (timestamp_ns : Nat)
    (iaq₀ : Rat) (acc₀ : Int) (co2₀ voc₀ : Rat) :
    ((py_bsec_do_steps e temperature humidity pressure gas_resistance
        timestamp_ns iaq₀ acc₀ co2₀ voc₀).sent).map bsec_input_t.time_stamp =
      [timestamp_ns, timestamp_ns, timestamp_ns, timestamp_ns] := by
  by_cases hf : (e.do_steps (stepInputs temperature humidity pressure
      gas_resistance timestamp_ns) 8).1 = BSEC_OK
  all_goals simp only [stepInputs] at hf
  · simp [py_bsec_do_steps, hf, applyOutputs_sent, stepInputs]
  · simp [py_bsec_do_steps, hf, stepInputs]
